import Mathlib

/-!
A verification development for the GTK debug-logging helper `wxGtkDebugLog`
of `src/gtk/debughlp.cpp`.  The source file contains two near-duplicate
implementations of the function; both are embedded below (`wxGtkDebugLog`
for the first, `wxGtkDebugLog2` for the second).

C strings are modelled as `List Char`, the C `printf`-family formatting as
`sprintf` below (returning `none` on a format/argument mismatch, which is
undefined behavior in C), the process-wide state (the function-local
`static` flag plus the log file) as `LogState`, and the per-call
environment (environment variables, clock reading, success of `fopen`) as
`CallCtx`.  Each call also produces a trace of the observable effects it
performs, in order, as a `List Event`.
-/

/-- Arguments consumed by a `printf`-style format string: a C `int`/`long`,
a C string, or a raw `va_list` object passed as if it were a value argument
(as the second implementation in the source does). -/
inductive FmtArg where
  | int (i : Int)
  | str (s : List Char)
  | valist (rest : List FmtArg)

/-- The decimal rendering a C `%d`/`%ld` produces for an integer. -/
def intChars (i : Int) : List Char := (toString i).data

/-- `printf`-style formatting over the specifiers the logger uses
(`%ld`, `%d`, `%s`, `%%`).  Returns `none` exactly when the C call would
be undefined behavior: a conversion specifier whose argument is missing or
has the wrong type (this includes a `va_list` object consumed as a value),
or an unmodelled specifier.  Surplus arguments are ignored, as in C. -/
def sprintf : List Char → List FmtArg → Option (List Char)
  | [], _ => some []
  | '%' :: 'l' :: 'd' :: rest, FmtArg.int i :: args =>
      (sprintf rest args).map (fun t => intChars i ++ t)
  | '%' :: 'd' :: rest, FmtArg.int i :: args =>
      (sprintf rest args).map (fun t => intChars i ++ t)
  | '%' :: 's' :: rest, FmtArg.str s :: args =>
      (sprintf rest args).map (fun t => s ++ t)
  | '%' :: '%' :: rest, args =>
      (sprintf rest args).map (fun t => '%' :: t)
  | '%' :: _, _ => none
  | c :: rest, args => (sprintf rest args).map (fun t => c :: t)

/-- Modelled from the spec: `wxGetEnv` is wxWidgets library code that is
not part of this repository's sources.  Per the spec, calling it with a
null value pointer reports only whether the named environment variable is
set: "read a fixed environment variable; cache whether it is set (its
value is irrelevant, only presence matters)". -/
def wxGetEnv (env : String → Option String) (name : String) : Bool :=
  (env name).isSome

/-- Observable effects a single call performs, in order. -/
inductive Event where
  | envRead (name : String)
  | fileOpen (path : String) (ok : Bool)
  | clockRead (sec nsec : Int)
  | fileWrite (bytes : List Char)
  | fileClose
  deriving DecidableEq, Repr

/-- Process-wide state: the function-local `static` cache of the
environment check (`none` before the first call has initialized it) and
the log file (`none` when the file does not exist, otherwise its bytes). -/
structure LogState where
  gdkFlag : Option Bool
  file : Option (List Char)
  deriving DecidableEq, Repr

/-- Per-call ambient context: the process environment at the time of the
call, whether `fopen("/tmp/cmclient_gtk.log", "a")` succeeds, and the
`CLOCK_REALTIME` reading `clock_gettime` delivers. -/
structure CallCtx where
  env : String → Option String
  openOk : Bool
  sec : Int
  nsec : Int

/-- The fixed log file path. -/
def logPath : String := "/tmp/cmclient_gtk.log"

/-- The fixed-field format string of the first implementation:
`"PreciseTime:%ld,%ld. %s:%d:%s--->"`. -/
def headerFmt : List Char := "PreciseTime:%ld,%ld. %s:%d:%s--->".data

/-- The fixed-field format string of the second implementation:
`"PreciseTime:%ld,%ld. "`. -/
def header2Fmt : List Char := "PreciseTime:%ld,%ld. ".data

/-- First implementation of `bool wxGtkDebugLog(const char* format, const
char* function_name, int line_num, const char* src_file, ...)` (lines 3-20
of `src/gtk/debughlp.cpp`).  Returns `none` when the C code's behavior is
undefined (a reached `vfprintf` whose format does not match the variadic
arguments), otherwise `some` of the returned bool, the new process state
and the trace of effects:

* the `static` flag is initialized from `wxGetEnv("GDK_DEBUG", nullptr)`
  on the first call only and is the cached value afterwards;
* if the flag is false, return `false` with no further effect;
* otherwise `fopen` the fixed path in append mode (creating the file when
  absent), then read the clock;
* if the open failed, return `false`;
* otherwise `fprintf` the fixed fields, `vfprintf` the caller's message,
  `fclose`, and return `true`. -/
def wxGtkDebugLog (ctx : CallCtx) (format : List Char) (function_name : List Char)
    (line_num : Int) (src_file : List Char) (varargs : List FmtArg)
    (s : LogState) : Option (Bool × LogState × List Event) :=
  let initTrace : List Event :=
    if s.gdkFlag.isNone then [Event.envRead "GDK_DEBUG"] else []
  let flag : Bool := s.gdkFlag.getD (wxGetEnv ctx.env "GDK_DEBUG")
  let s1 : LogState := { s with gdkFlag := some flag }
  if flag = false then
    some (false, s1, initTrace)
  else
    let content : List Char := s1.file.getD []
    let trace2 : List Event := initTrace ++
      [Event.fileOpen logPath ctx.openOk, Event.clockRead ctx.sec ctx.nsec]
    if ctx.openOk then
      match sprintf headerFmt [FmtArg.int ctx.sec, FmtArg.int ctx.nsec,
              FmtArg.str src_file, FmtArg.int line_num, FmtArg.str function_name],
            sprintf format varargs with
      | some hdr, some msg =>
          some (true, { s1 with file := some (content ++ hdr ++ msg) },
            trace2 ++ [Event.fileWrite hdr, Event.fileWrite msg, Event.fileClose])
      | _, _ => none
    else
      some (false, s1, trace2)

/-- Second implementation of `wxGtkDebugLog` (lines 22-39 of
`src/gtk/debughlp.cpp`).  It differs from the first in that its first
`fprintf` writes only the timestamp fields, and its second `fprintf` is
given the caller's format string with `src_file`, `line_num`,
`function_name` and the raw `va_list` object as the value arguments. -/
def wxGtkDebugLog2 (ctx : CallCtx) (format : List Char) (function_name : List Char)
    (line_num : Int) (src_file : List Char) (varargs : List FmtArg)
    (s : LogState) : Option (Bool × LogState × List Event) :=
  let initTrace : List Event :=
    if s.gdkFlag.isNone then [Event.envRead "GDK_DEBUG"] else []
  let flag : Bool := s.gdkFlag.getD (wxGetEnv ctx.env "GDK_DEBUG")
  let s1 : LogState := { s with gdkFlag := some flag }
  if flag = false then
    some (false, s1, initTrace)
  else
    let content : List Char := s1.file.getD []
    let trace2 : List Event := initTrace ++
      [Event.fileOpen logPath ctx.openOk, Event.clockRead ctx.sec ctx.nsec]
    if ctx.openOk then
      match sprintf header2Fmt [FmtArg.int ctx.sec, FmtArg.int ctx.nsec],
            sprintf format [FmtArg.str src_file, FmtArg.int line_num,
              FmtArg.str function_name, FmtArg.valist varargs] with
      | some hdr, some msg =>
          some (true, { s1 with file := some (content ++ hdr ++ msg) },
            trace2 ++ [Event.fileWrite hdr, Event.fileWrite msg, Event.fileClose])
      | _, _ => none
    else
      some (false, s1, trace2)

/-- One call's worth of inputs, for reasoning about sequences of calls. -/
structure Call where
  ctx : CallCtx
  format : List Char
  function_name : List Char
  line_num : Int
  src_file : List Char
  varargs : List FmtArg

/-- Run a sequence of calls to the first implementation, collecting the
returned booleans and concatenating the effect traces. -/
def runCalls : List Call → LogState → Option (List Bool × LogState × List Event)
  | [], s => some ([], s, [])
  | c :: cs, s =>
      (wxGtkDebugLog c.ctx c.format c.function_name c.line_num c.src_file
          c.varargs s).bind
        (fun r1 => (runCalls cs r1.2.1).bind
          (fun r2 => some (r1.1 :: r2.1, r2.2.1, r1.2.2 ++ r2.2.2)))

/-- The bytes the first implementation's fixed-field `fprintf` produces
for clock reading `(a, b)`, source file `sf`, line number `ln` and
function name `fn`. -/
def headerBytes (a b : Int) (sf : List Char) (ln : Int) (fn : List Char) : List Char :=
  "PreciseTime:".data ++ intChars a ++ [','] ++ intChars b ++ ". ".data ++
    sf ++ [':'] ++ intChars ln ++ [':'] ++ fn ++ "--->".data

/-- Whether an event is the environment lookup. -/
def Event.isEnvRead : Event → Bool
  | Event.envRead _ => true
  | _ => false

/-- Whether an event is a file open. -/
def Event.isFileOpen : Event → Bool
  | Event.fileOpen _ _ => true
  | _ => false

/-- Whether an event is a clock reading. -/
def Event.isClockRead : Event → Bool
  | Event.clockRead _ _ => true
  | _ => false

/-- All bytes a trace writes to the log file, in order. -/
def writtenBytes (tr : List Event) : List Char :=
  (tr.filterMap fun e => match e with
    | Event.fileWrite b => some b
    | _ => none).flatten

/-- The timestamp of the first clock reading in a trace (the reading a
successful call stamps into its log line). -/
def recordedTs : List Event → Option (Int × Int)
  | [] => none
  | Event.clockRead a b :: _ => some (a, b)
  | _ :: tr => recordedTs tr

/-- An environment in which `GDK_DEBUG` is set (to `"1"`). -/
def envOn : String → Option String := fun n =>
  if n = "GDK_DEBUG" then some "1" else none

/-- An environment in which `GDK_DEBUG` is set to a different value. -/
def envOnOther : String → Option String := fun n =>
  if n = "GDK_DEBUG" then some "xyz" else none

/-- An environment in which `GDK_DEBUG` is absent. -/
def envOff : String → Option String := fun _ => none

/-- Index of the first event satisfying `p`, if any. -/
def firstIdx (p : Event → Bool) : List Event → Option Nat
  | [] => none
  | e :: tr => if p e then some 0 else (firstIdx p tr).map (fun i => i + 1)

/-- The line shape claimed for the scenario of C1, with a space between
`--->` and the message: `PreciseTime:<a>,<b>. worker.c:42:DoWork---> value=7`. -/
def claimC1Line (a b : Int) : List Char :=
  ("PreciseTime:".data ++ intChars a ++ [','] ++ intChars b) ++
    ". worker.c:42:DoWork---> value=7".data

/-- The line the code actually appends in the scenario of C1, with no
space between `--->` and the message:
`PreciseTime:<a>,<b>. worker.c:42:DoWork--->value=7`. -/
def amendedC1Line (a b : Int) : List Char :=
  ("PreciseTime:".data ++ intChars a ++ [','] ++ intChars b) ++
    ". worker.c:42:DoWork--->value=7".data

/-- Two calls agree on everything except the environment, and their
environments agree on whether `GDK_DEBUG` is present (its value may
differ or be absent in one and not the other is excluded). -/
def Call.sameButEnv (c1 c2 : Call) : Prop :=
  c1.format = c2.format ∧ c1.function_name = c2.function_name ∧
  c1.line_num = c2.line_num ∧ c1.src_file = c2.src_file ∧
  c1.varargs = c2.varargs ∧ c1.ctx.openOk = c2.ctx.openOk ∧
  c1.ctx.sec = c2.ctx.sec ∧ c1.ctx.nsec = c2.ctx.nsec ∧
  (c1.ctx.env "GDK_DEBUG").isSome = (c2.ctx.env "GDK_DEBUG").isSome

/-- The effect trace of the first call of the C6 counterexample (clock
reading `(100, 0)`). -/
def traceC6A : List Event :=
  [Event.fileOpen logPath true, Event.clockRead 100 0,
   Event.fileWrite "PreciseTime:100,0. f.c:1:fn--->".data, Event.fileWrite "m".data,
   Event.fileClose]

/-- The effect trace of the second call of the C6 counterexample (clock
reading `(50, 0)`: the real-time clock stepped backwards between the
calls). -/
def traceC6B : List Event :=
  [Event.fileOpen logPath true, Event.clockRead 50 0,
   Event.fileWrite "PreciseTime:50,0. f.c:1:fn--->".data, Event.fileWrite "m".data,
   Event.fileClose]

/-- The effect trace of the enabled call of the C9 counterexample: the
file open comes first, the clock reading second. -/
def traceC9 : List Event :=
  [Event.fileOpen logPath true, Event.clockRead 5 6,
   Event.fileWrite "PreciseTime:5,6. f.c:1:fn--->".data, Event.fileWrite "m".data,
   Event.fileClose]

theorem setFlag_self (s : LogState) (b : Option Bool) (h : s.gdkFlag = b) :
    ({ s with gdkFlag := b } : LogState) = s := by
  cases s
  subst h
  rfl

theorem sprintf_headerFmt (a b ln : Int) (sf fn : List Char) :
    sprintf headerFmt
        [FmtArg.int a, FmtArg.int b, FmtArg.str sf, FmtArg.int ln, FmtArg.str fn] =
      some (headerBytes a b sf ln fn) := by
  simp [headerFmt, sprintf, headerBytes]

theorem step_cached_false (ctx : CallCtx) (f fn : List Char) (ln : Int) (sf : List Char)
    (va : List FmtArg) (s : LogState) (h0 : s.gdkFlag = some false) :
    wxGtkDebugLog ctx f fn ln sf va s = some (false, s, []) := by
  simp [wxGtkDebugLog, h0, setFlag_self s (some false) h0]

theorem step_cached_true_openFail (ctx : CallCtx) (f fn : List Char) (ln : Int)
    (sf : List Char) (va : List FmtArg) (s : LogState)
    (h0 : s.gdkFlag = some true) (ho : ctx.openOk = false) :
    wxGtkDebugLog ctx f fn ln sf va s =
      some (false, s, [Event.fileOpen logPath false, Event.clockRead ctx.sec ctx.nsec]) := by
  simp [wxGtkDebugLog, h0, ho, setFlag_self s (some true) h0]

theorem step_cached_true_openOk (ctx : CallCtx) (f fn : List Char) (ln : Int)
    (sf : List Char) (va : List FmtArg) (msg : List Char) (s : LogState)
    (h0 : s.gdkFlag = some true) (ho : ctx.openOk = true) (hm : sprintf f va = some msg) :
    wxGtkDebugLog ctx f fn ln sf va s =
      some (true,
        { s with file := some (s.file.getD [] ++ headerBytes ctx.sec ctx.nsec sf ln fn ++ msg) },
        [Event.fileOpen logPath true, Event.clockRead ctx.sec ctx.nsec,
         Event.fileWrite (headerBytes ctx.sec ctx.nsec sf ln fn), Event.fileWrite msg,
         Event.fileClose]) := by
  cases s with
  | mk g fl =>
    have h0' : g = some true := h0
    subst h0'
    simp [wxGtkDebugLog, ho, hm, sprintf_headerFmt]

theorem step_cached_true_openOk_none (ctx : CallCtx) (f fn : List Char) (ln : Int)
    (sf : List Char) (va : List FmtArg) (s : LogState)
    (h0 : s.gdkFlag = some true) (ho : ctx.openOk = true) (hm : sprintf f va = none) :
    wxGtkDebugLog ctx f fn ln sf va s = none := by
  simp [wxGtkDebugLog, h0, ho, hm, sprintf_headerFmt]

theorem step_uncached (ctx : CallCtx) (f fn : List Char) (ln : Int) (sf : List Char)
    (va : List FmtArg) (s : LogState) (h0 : s.gdkFlag = none) :
    wxGtkDebugLog ctx f fn ln sf va s =
      (wxGtkDebugLog ctx f fn ln sf va
          { s with gdkFlag := some (wxGetEnv ctx.env "GDK_DEBUG") }).map
        (fun r => (r.1, r.2.1, Event.envRead "GDK_DEBUG" :: r.2.2)) := by
  cases hb : wxGetEnv ctx.env "GDK_DEBUG"
  · simp [wxGtkDebugLog, h0, hb]
  · cases ho : ctx.openOk
    · simp [wxGtkDebugLog, h0, hb, ho]
    · cases hm : sprintf f va
      · simp [wxGtkDebugLog, h0, hb, ho, hm, sprintf_headerFmt]
      · simp [wxGtkDebugLog, h0, hb, ho, hm, sprintf_headerFmt]

theorem runCalls_cached_false (cs : List Call) (s : LogState) (h0 : s.gdkFlag = some false) :
    runCalls cs s = some (List.replicate cs.length false, s, []) := by
  induction cs with
  | nil => simp [runCalls]
  | cons c cs ih =>
    simp [runCalls,
      step_cached_false c.ctx c.format c.function_name c.line_num c.src_file c.varargs s h0,
      ih, List.replicate_succ]

theorem step_cached_true_shape (ctx : CallCtx) (f fn : List Char) (ln : Int)
    (sf : List Char) (va : List FmtArg) (s : LogState) (r : Bool × LogState × List Event)
    (h0 : s.gdkFlag = some true) (h : wxGtkDebugLog ctx f fn ln sf va s = some r) :
    r.2.1.gdkFlag = some true ∧ r.2.2.countP Event.isEnvRead = 0 ∧
      r.2.2.countP Event.isFileOpen = 1 := by
  cases ho : ctx.openOk
  · rw [step_cached_true_openFail ctx f fn ln sf va s h0 ho] at h
    obtain rfl := Option.some.inj h
    simp [h0, List.countP_cons, Event.isEnvRead, Event.isFileOpen]
  · cases hm : sprintf f va with
    | none =>
      rw [step_cached_true_openOk_none ctx f fn ln sf va s h0 ho hm] at h
      cases h
    | some msg =>
      rw [step_cached_true_openOk ctx f fn ln sf va msg s h0 ho hm] at h
      obtain rfl := Option.some.inj h
      simp [h0, List.countP_cons, Event.isEnvRead, Event.isFileOpen]

theorem runCalls_cached_true (cs : List Call) (s : LogState)
    (h0 : s.gdkFlag = some true) (r : List Bool × LogState × List Event)
    (h : runCalls cs s = some r) :
    r.2.1.gdkFlag = some true ∧ r.2.2.countP Event.isEnvRead = 0 ∧
      r.2.2.countP Event.isFileOpen = cs.length := by
  induction cs generalizing s r with
  | nil =>
    rw [runCalls] at h
    obtain rfl := Option.some.inj h
    simp [h0]
  | cons c cs ih =>
    rw [runCalls] at h
    cases hstep : wxGtkDebugLog c.ctx c.format c.function_name c.line_num c.src_file
        c.varargs s with
    | none => rw [hstep] at h; cases h
    | some r1 =>
      rw [hstep, Option.some_bind] at h
      obtain ⟨b1, s1, tr1⟩ := r1
      cases hrun : runCalls cs s1 with
      | none => rw [hrun] at h; cases h
      | some r2 =>
        rw [hrun, Option.some_bind] at h
        obtain ⟨bs, s2, trs⟩ := r2
        obtain rfl := Option.some.inj h
        obtain ⟨hf1, he1, ho1⟩ := step_cached_true_shape c.ctx c.format c.function_name
          c.line_num c.src_file c.varargs s (b1, s1, tr1) h0 hstep
        obtain ⟨hf2, he2, ho2⟩ := ih s1 hf1 (bs, s2, trs) hrun
        refine ⟨hf2, ?_, ?_⟩
        · show (tr1 ++ trs).countP Event.isEnvRead = 0
          rw [List.countP_append, he1, he2]
        · show (tr1 ++ trs).countP Event.isFileOpen = (c :: cs).length
          rw [List.countP_append, ho1, ho2, List.length_cons]
          omega

theorem step_uncached_true_flag (ctx : CallCtx) (f fn : List Char) (ln : Int)
    (sf : List Char) (va : List FmtArg) (s : LogState) (r : Bool × LogState × List Event)
    (h0 : s.gdkFlag = none) (he : wxGetEnv ctx.env "GDK_DEBUG" = true)
    (h : wxGtkDebugLog ctx f fn ln sf va s = some r) : r.2.1.gdkFlag = some true := by
  rw [step_uncached ctx f fn ln sf va s h0, he] at h
  obtain ⟨r1, hr1, rfl⟩ := Option.map_eq_some'.mp h
  exact (step_cached_true_shape ctx f fn ln sf va _ r1 rfl hr1).1

theorem success_cached (ctx : CallCtx) (f fn : List Char) (ln : Int) (sf : List Char)
    (va : List FmtArg) (s s' : LogState) (tr : List Event)
    (h0 : s.gdkFlag = some true)
    (h : wxGtkDebugLog ctx f fn ln sf va s = some (true, s', tr)) :
    ∃ msg, sprintf f va = some msg ∧
      s' = { s with
              file := some (s.file.getD [] ++ headerBytes ctx.sec ctx.nsec sf ln fn ++ msg) } ∧
      tr = [Event.fileOpen logPath true, Event.clockRead ctx.sec ctx.nsec,
        Event.fileWrite (headerBytes ctx.sec ctx.nsec sf ln fn), Event.fileWrite msg,
        Event.fileClose] := by
  cases ho : ctx.openOk
  · rw [step_cached_true_openFail ctx f fn ln sf va s h0 ho] at h
    have := Option.some.inj h
    simp at this
  · cases hm : sprintf f va with
    | none =>
      rw [step_cached_true_openOk_none ctx f fn ln sf va s h0 ho hm] at h
      cases h
    | some msg =>
      rw [step_cached_true_openOk ctx f fn ln sf va msg s h0 ho hm] at h
      have := Option.some.inj h
      simp only [Prod.mk.injEq, true_and] at this
      exact ⟨msg, rfl, this.1.symm, this.2.symm⟩

theorem success_shape (ctx : CallCtx) (f fn : List Char) (ln : Int) (sf : List Char)
    (va : List FmtArg) (s s' : LogState) (tr : List Event)
    (h : wxGtkDebugLog ctx f fn ln sf va s = some (true, s', tr)) :
    ∃ msg, sprintf f va = some msg ∧
      s'.file = some (s.file.getD [] ++ headerBytes ctx.sec ctx.nsec sf ln fn ++ msg) ∧
      writtenBytes tr = headerBytes ctx.sec ctx.nsec sf ln fn ++ msg ∧
      recordedTs tr = some (ctx.sec, ctx.nsec) := by
  cases h0 : s.gdkFlag with
  | some b =>
    cases b with
    | false =>
      rw [step_cached_false ctx f fn ln sf va s h0] at h
      have := Option.some.inj h
      simp at this
    | true =>
      obtain ⟨msg, hm, hs', htr⟩ := success_cached ctx f fn ln sf va s s' tr h0 h
      subst hs' htr
      exact ⟨msg, hm, rfl, by simp [writtenBytes], by simp [recordedTs]⟩
  | none =>
    rw [step_uncached ctx f fn ln sf va s h0] at h
    obtain ⟨⟨b1, s1, tr1⟩, hr1, hmap⟩ := Option.map_eq_some'.mp h
    simp only [Prod.mk.injEq] at hmap
    obtain ⟨hb1, hs1, htr⟩ := hmap
    subst hb1
    cases hb : wxGetEnv ctx.env "GDK_DEBUG" with
    | false =>
      rw [hb] at hr1
      rw [step_cached_false ctx f fn ln sf va _ rfl] at hr1
      have := Option.some.inj hr1
      simp at this
    | true =>
      rw [hb] at hr1
      obtain ⟨msg, hm, hs2, htr2⟩ := success_cached ctx f fn ln sf va _ s1 tr1 rfl hr1
      rw [← hs1, ← htr]
      subst hs2
      subst htr2
      exact ⟨msg, hm, rfl, by simp [writtenBytes], by simp [recordedTs]⟩

theorem headerBytes_ne_nil (a b : Int) (sf : List Char) (ln : Int) (fn : List Char) :
    headerBytes a b sf ln fn ≠ [] := by
  simp [headerBytes]

theorem headerBytes_last (a b : Int) (sf : List Char) (ln : Int) (fn : List Char) :
    (headerBytes a b sf ln fn).getLast? = some '>' := by
  have hsplit : headerBytes a b sf ln fn =
      ("PreciseTime:".data ++ intChars a ++ [','] ++ intChars b ++ ". ".data ++
        sf ++ [':'] ++ intChars ln ++ [':'] ++ fn) ++ "--->".data := by
    simp [headerBytes]
  rw [hsplit, List.getLast?_append_of_ne_nil _ (by decide)]
  decide

theorem headerBytes_c1 (a b : Int) :
    headerBytes a b "worker.c".data 42 "DoWork".data ++ "value=7".data =
      amendedC1Line a b := by
  simp [headerBytes, amendedC1Line, intChars]
  decide

theorem step_file_cached (ctx : CallCtx) (f fn : List Char) (ln : Int) (sf : List Char)
    (va : List FmtArg) (s : LogState) (b : Bool) (r : Bool × LogState × List Event)
    (h0 : s.gdkFlag = some b) (h : wxGtkDebugLog ctx f fn ln sf va s = some r) :
    (r.2.1.file = s.file ∨ ∃ d, r.2.1.file = some (s.file.getD [] ++ d)) ∧
    (s.file.getD []).length ≤ (r.2.1.file.getD []).length ∧
    (r.1 = true → ∃ w, w ≠ [] ∧ r.2.1.file = some (s.file.getD [] ++ w)) := by
  cases b with
  | false =>
    rw [step_cached_false ctx f fn ln sf va s h0] at h
    obtain rfl := Option.some.inj h
    exact ⟨Or.inl rfl, le_refl _, fun hc => Bool.noConfusion hc⟩
  | true =>
    cases ho : ctx.openOk
    · rw [step_cached_true_openFail ctx f fn ln sf va s h0 ho] at h
      obtain rfl := Option.some.inj h
      exact ⟨Or.inl rfl, le_refl _, fun hc => Bool.noConfusion hc⟩
    · cases hm : sprintf f va with
      | none =>
        rw [step_cached_true_openOk_none ctx f fn ln sf va s h0 ho hm] at h
        cases h
      | some msg =>
        rw [step_cached_true_openOk ctx f fn ln sf va msg s h0 ho hm] at h
        obtain rfl := Option.some.inj h
        have hne : headerBytes ctx.sec ctx.nsec sf ln fn ++ msg ≠ [] := by
          intro hnil
          exact headerBytes_ne_nil ctx.sec ctx.nsec sf ln fn (List.append_eq_nil.mp hnil).1
        refine ⟨Or.inr ⟨headerBytes ctx.sec ctx.nsec sf ln fn ++ msg, by simp⟩, ?_,
          fun _ => ⟨headerBytes ctx.sec ctx.nsec sf ln fn ++ msg, hne, by simp⟩⟩
        simp [List.length_append]

theorem step_sameButEnv (c1 c2 : Call) (hc : Call.sameButEnv c1 c2) (s : LogState) :
    wxGtkDebugLog c1.ctx c1.format c1.function_name c1.line_num c1.src_file c1.varargs s =
      wxGtkDebugLog c2.ctx c2.format c2.function_name c2.line_num c2.src_file
        c2.varargs s := by
  obtain ⟨hf, hfn, hln, hsf, hva, ho, hsec, hnsec, he⟩ := hc
  simp only [wxGtkDebugLog, hf, hfn, hln, hsf, hva, ho, hsec, hnsec, wxGetEnv, he]

theorem firstIdx_cached_true (ctx : CallCtx) (f fn : List Char) (ln : Int)
    (sf : List Char) (va : List FmtArg) (s : LogState) (r : Bool × LogState × List Event)
    (h0 : s.gdkFlag = some true) (h : wxGtkDebugLog ctx f fn ln sf va s = some r) :
    firstIdx Event.isFileOpen r.2.2 = some 0 ∧
      firstIdx Event.isClockRead r.2.2 = some 1 := by
  cases ho : ctx.openOk
  · rw [step_cached_true_openFail ctx f fn ln sf va s h0 ho] at h
    obtain rfl := Option.some.inj h
    exact ⟨by simp [firstIdx, Event.isFileOpen, Event.isClockRead],
      by simp [firstIdx, Event.isFileOpen, Event.isClockRead]⟩
  · cases hm : sprintf f va with
    | none =>
      rw [step_cached_true_openOk_none ctx f fn ln sf va s h0 ho hm] at h
      cases h
    | some msg =>
      rw [step_cached_true_openOk ctx f fn ln sf va msg s h0 ho hm] at h
      obtain rfl := Option.some.inj h
      exact ⟨by simp [firstIdx, Event.isFileOpen, Event.isClockRead],
        by simp [firstIdx, Event.isFileOpen, Event.isClockRead]⟩

/-- Claim C1, as stated, is false on the code: in the spec's scenario the
call returns `true` and appends a line, but the line does not match the
claimed pattern `PreciseTime:<int>,<int>. worker.c:42:DoWork---> value=7`,
because the code writes no space between `--->` and the caller's message.
Concretely, with the flag set at the first call, a successful open and
clock reading `(100, 200)`, the appended line is
`PreciseTime:100,200. worker.c:42:DoWork--->value=7`, which is not
`claimC1Line a b` for any integers `a`, `b`. -/
theorem C1_counterexample :
    (wxGtkDebugLog ⟨envOn, true, 100, 200⟩ "value=%d".data "DoWork".data 42
        "worker.c".data [FmtArg.int 7] ⟨none, none⟩ =
      some (true,
        ⟨some true, some "PreciseTime:100,200. worker.c:42:DoWork--->value=7".data⟩,
        [Event.envRead "GDK_DEBUG", Event.fileOpen logPath true, Event.clockRead 100 200,
         Event.fileWrite "PreciseTime:100,200. worker.c:42:DoWork--->".data,
         Event.fileWrite "value=7".data, Event.fileClose])) ∧
    ¬ ∃ a b : Int,
      "PreciseTime:100,200. worker.c:42:DoWork--->value=7".data = claimC1Line a b := by
  refine ⟨by decide, ?_⟩
  rintro ⟨a, b, hab⟩
  have key : ∀ X : List Char,
      ((X ++ ". worker.c:42:DoWork---> value=7".data).reverse)[7]? = some ' ' := by
    intro X
    rw [List.reverse_append, List.getElem?_append, if_pos (by decide)]
    decide
  have h7 : (("PreciseTime:100,200. worker.c:42:DoWork--->value=7".data).reverse)[7]? =
      some ' ' := by
    rw [hab]
    simp only [claimC1Line]
    exact key _
  exact absurd h7 (by decide)

/-- Claim C1, amended: for every enabled call (flag resolves to true,
file open succeeds) with format `"value=%d"`, function `"DoWork"`, line
`42`, source file `"worker.c"` and argument `7`, the call returns `true`
and appends the line `PreciseTime:<sec>,<nsec>. worker.c:42:DoWork--->value=7`
(no space between `--->` and the message), the timestamp, source file,
line number and function name followed by the formatted message. -/
theorem C1_theorem (ctx : CallCtx) (s : LogState)
    (hen : s.gdkFlag.getD (wxGetEnv ctx.env "GDK_DEBUG") = true)
    (ho : ctx.openOk = true) :
    wxGtkDebugLog ctx "value=%d".data "DoWork".data 42 "worker.c".data
        [FmtArg.int 7] s =
      some (true,
        { s with gdkFlag := some true,
                 file := some (s.file.getD [] ++ amendedC1Line ctx.sec ctx.nsec) },
        (if s.gdkFlag.isNone then [Event.envRead "GDK_DEBUG"] else []) ++
          [Event.fileOpen logPath true, Event.clockRead ctx.sec ctx.nsec,
           Event.fileWrite (headerBytes ctx.sec ctx.nsec "worker.c".data 42 "DoWork".data),
           Event.fileWrite "value=7".data, Event.fileClose]) := by
  have hm : sprintf "value=%d".data [FmtArg.int 7] = some "value=7".data := by decide
  cases h0 : s.gdkFlag with
  | some b =>
    have hb : b = true := by simpa [h0] using hen
    subst hb
    rw [step_cached_true_openOk ctx "value=%d".data "DoWork".data 42 "worker.c".data
      [FmtArg.int 7] "value=7".data s h0 ho hm]
    cases s with
    | mk g fl =>
      have hg : g = some true := h0
      subst hg
      simp [h0, ← headerBytes_c1, List.append_assoc]
  | none =>
    have he : wxGetEnv ctx.env "GDK_DEBUG" = true := by simpa [h0] using hen
    rw [step_uncached ctx "value=%d".data "DoWork".data 42 "worker.c".data
      [FmtArg.int 7] s h0, he,
      step_cached_true_openOk ctx "value=%d".data "DoWork".data 42 "worker.c".data
      [FmtArg.int 7] "value=7".data _ rfl ho hm]
    cases s with
    | mk g fl =>
      have hg : g = none := h0
      subst hg
      simp [← headerBytes_c1, List.append_assoc]

/-- Witness for the amended C1: the spec's scenario (first call with the
variable set, open succeeds, clock `(100, 200)`) returns `true` and
appends `PreciseTime:100,200. worker.c:42:DoWork--->value=7`. -/
theorem C1_witness :
    wxGtkDebugLog ⟨envOn, true, 100, 200⟩ "value=%d".data "DoWork".data 42
        "worker.c".data [FmtArg.int 7] ⟨none, none⟩ =
      some (true, ⟨some true, some (amendedC1Line 100 200)⟩,
        [Event.envRead "GDK_DEBUG", Event.fileOpen logPath true, Event.clockRead 100 200,
         Event.fileWrite (headerBytes 100 200 "worker.c".data 42 "DoWork".data),
         Event.fileWrite "value=7".data, Event.fileClose]) :=
  C1_theorem ⟨envOn, true, 100, 200⟩ ⟨none, none⟩ (by decide) rfl

/-- Claim C2: the enablement flag is computed exactly once.  If the
environment variable is present at the first call (cache still empty),
then after that call the cached flag is `some true`, and every later
sequence of calls — whatever each call's environment, including ones with
the variable removed — keeps the flag `some true`, never re-reads the
environment (no `envRead` event), and behaves as enabled: every call
reaches the file open (exactly one `fileOpen` event per call). -/
theorem C2_theorem (ctx0 : CallCtx) (f0 fn0 : List Char) (ln0 : Int) (sf0 : List Char)
    (va0 : List FmtArg) (s0 : LogState) (r0 : Bool × LogState × List Event)
    (h0 : s0.gdkFlag = none) (henv : (ctx0.env "GDK_DEBUG").isSome = true)
    (h : wxGtkDebugLog ctx0 f0 fn0 ln0 sf0 va0 s0 = some r0) :
    r0.2.1.gdkFlag = some true ∧
    ∀ (cs : List Call) (r : List Bool × LogState × List Event),
      runCalls cs r0.2.1 = some r →
      r.2.1.gdkFlag = some true ∧ r.2.2.countP Event.isEnvRead = 0 ∧
        r.2.2.countP Event.isFileOpen = cs.length := by
  have hflag := step_uncached_true_flag ctx0 f0 fn0 ln0 sf0 va0 s0 r0 h0 henv h
  exact ⟨hflag, fun cs r hr => runCalls_cached_true cs r0.2.1 hflag r hr⟩

/-- Witness for C2: a first call with `GDK_DEBUG` set latches the flag to
`some true`; a later call whose environment no longer has the variable
still opens the file (one `fileOpen` event) and reads the environment
zero times. -/
theorem C2_witness :
    ((true,
        (⟨some true, some "PreciseTime:1,2. f.c:3:fn--->m".data⟩ : LogState),
        ([Event.envRead "GDK_DEBUG", Event.fileOpen logPath true, Event.clockRead 1 2,
          Event.fileWrite "PreciseTime:1,2. f.c:3:fn--->".data, Event.fileWrite "m".data,
          Event.fileClose] : List Event)) :
          Bool × LogState × List Event).2.1.gdkFlag = some true ∧
    ((⟨some true,
        some "PreciseTime:1,2. f.c:3:fn--->mPreciseTime:4,5. h.c:6:g--->x".data⟩ :
          LogState).gdkFlag = some true ∧
      List.countP Event.isEnvRead
        [Event.fileOpen logPath true, Event.clockRead 4 5,
         Event.fileWrite "PreciseTime:4,5. h.c:6:g--->".data, Event.fileWrite "x".data,
         Event.fileClose] = 0 ∧
      List.countP Event.isFileOpen
        [Event.fileOpen logPath true, Event.clockRead 4 5,
         Event.fileWrite "PreciseTime:4,5. h.c:6:g--->".data, Event.fileWrite "x".data,
         Event.fileClose] = 1) :=
  ⟨(C2_theorem ⟨envOn, true, 1, 2⟩ "m".data "fn".data 3 "f.c".data [] ⟨none, none⟩
      (true, ⟨some true, some "PreciseTime:1,2. f.c:3:fn--->m".data⟩,
        [Event.envRead "GDK_DEBUG", Event.fileOpen logPath true, Event.clockRead 1 2,
         Event.fileWrite "PreciseTime:1,2. f.c:3:fn--->".data, Event.fileWrite "m".data,
         Event.fileClose])
      rfl (by decide) (by decide)).1,
   (C2_theorem ⟨envOn, true, 1, 2⟩ "m".data "fn".data 3 "f.c".data [] ⟨none, none⟩
      (true, ⟨some true, some "PreciseTime:1,2. f.c:3:fn--->m".data⟩,
        [Event.envRead "GDK_DEBUG", Event.fileOpen logPath true, Event.clockRead 1 2,
         Event.fileWrite "PreciseTime:1,2. f.c:3:fn--->".data, Event.fileWrite "m".data,
         Event.fileClose])
      rfl (by decide) (by decide)).2
     [⟨⟨envOff, true, 4, 5⟩, "x".data, "g".data, 6, "h.c".data, []⟩]
     ([true],
       ⟨some true,
         some "PreciseTime:1,2. f.c:3:fn--->mPreciseTime:4,5. h.c:6:g--->x".data⟩,
       [Event.fileOpen logPath true, Event.clockRead 4 5,
        Event.fileWrite "PreciseTime:4,5. h.c:6:g--->".data, Event.fileWrite "x".data,
        Event.fileClose])
     (by decide)⟩

/-- Claim C3: if the environment variable is absent at the first call,
that call and every later call return `false`, perform no file I/O (the
whole trace is the single environment read of the first call), and leave
the log file component of the state unchanged. -/
theorem C3_theorem (c0 : Call) (cs : List Call) (s0 : LogState)
    (h0 : s0.gdkFlag = none) (he : (c0.ctx.env "GDK_DEBUG").isSome = false) :
    runCalls (c0 :: cs) s0 =
      some (List.replicate (cs.length + 1) false, { s0 with gdkFlag := some false },
        [Event.envRead "GDK_DEBUG"]) := by
  have he' : wxGetEnv c0.ctx.env "GDK_DEBUG" = false := he
  have hstep : wxGtkDebugLog c0.ctx c0.format c0.function_name c0.line_num c0.src_file
      c0.varargs s0 =
      some (false, { s0 with gdkFlag := some false }, [Event.envRead "GDK_DEBUG"]) := by
    rw [step_uncached c0.ctx c0.format c0.function_name c0.line_num c0.src_file
      c0.varargs s0 h0, he',
      step_cached_false c0.ctx c0.format c0.function_name c0.line_num c0.src_file
      c0.varargs _ rfl]
    rfl
  rw [runCalls, hstep, Option.some_bind, runCalls_cached_false cs _ rfl]
  simp [List.replicate_succ]

/-- Witness for C3: two calls with the variable absent at the first (and
even present at the second) both return `false`; the only event is one
environment read, and the pre-existing file bytes are untouched. -/
theorem C3_witness :
    runCalls
      [⟨⟨envOff, true, 1, 2⟩, "m".data, "fn".data, 3, "f.c".data, []⟩,
       ⟨⟨envOn, true, 4, 5⟩, "x".data, "g".data, 6, "h.c".data, []⟩]
      ⟨none, some "old".data⟩ =
      some ([false, false], ⟨some false, some "old".data⟩,
        [Event.envRead "GDK_DEBUG"]) :=
  C3_theorem ⟨⟨envOff, true, 1, 2⟩, "m".data, "fn".data, 3, "f.c".data, []⟩
    [⟨⟨envOn, true, 4, 5⟩, "x".data, "g".data, 6, "h.c".data, []⟩]
    ⟨none, some "old".data⟩ rfl (by decide)

/-- Claim C4: for every enabled call where the file open fails, the
function has a well-defined result (`some`, for any format string and
arguments — C formatting is never reached, so no undefined behavior,
exception or abort is possible), returns `false`, performs no write (the
trace holds no `fileWrite`), and leaves the file component unchanged. -/
theorem C4_theorem (ctx : CallCtx) (f fn : List Char) (ln : Int) (sf : List Char)
    (va : List FmtArg) (s : LogState)
    (hen : s.gdkFlag.getD (wxGetEnv ctx.env "GDK_DEBUG") = true)
    (ho : ctx.openOk = false) :
    wxGtkDebugLog ctx f fn ln sf va s =
      some (false, { s with gdkFlag := some true },
        (if s.gdkFlag.isNone then [Event.envRead "GDK_DEBUG"] else []) ++
          [Event.fileOpen logPath false, Event.clockRead ctx.sec ctx.nsec]) := by
  cases h0 : s.gdkFlag with
  | some b =>
    have hb : b = true := by simpa [h0] using hen
    subst hb
    rw [step_cached_true_openFail ctx f fn ln sf va s h0 ho, setFlag_self s (some true) h0]
    simp [h0, setFlag_self s (some true) h0]
  | none =>
    have he : wxGetEnv ctx.env "GDK_DEBUG" = true := by simpa [h0] using hen
    rw [step_uncached ctx f fn ln sf va s h0, he,
      step_cached_true_openFail ctx f fn ln sf va _ rfl ho]
    simp [h0]

/-- Witness for C4: first call, variable present, open fails, and a
format string (`"%q"`) that would be undefined behavior if it were ever
formatted: the call still returns `some (false, ...)` with no write and
the file bytes `"keep"` intact. -/
theorem C4_witness :
    wxGtkDebugLog ⟨envOn, false, 9, 10⟩ "%q".data "fn".data 1 "f.c".data []
        ⟨none, some "keep".data⟩ =
      some (false, ⟨some true, some "keep".data⟩,
        [Event.envRead "GDK_DEBUG", Event.fileOpen logPath false,
         Event.clockRead 9 10]) :=
  C4_theorem ⟨envOn, false, 9, 10⟩ "%q".data "fn".data 1 "f.c".data []
    ⟨none, some "keep".data⟩ (by decide) rfl

/-- Claim C5: the log file is append-only.  For every call (of any
sequence, this being the induction step between any two consecutive
states): the file is unchanged or extended by a suffix, its size (missing
file counted as size 0) never decreases, and a call returning `true`
appends a non-empty record after the existing content. -/
theorem C5_theorem (ctx : CallCtx) (f fn : List Char) (ln : Int) (sf : List Char)
    (va : List FmtArg) (s : LogState) (r : Bool × LogState × List Event)
    (h : wxGtkDebugLog ctx f fn ln sf va s = some r) :
    (r.2.1.file = s.file ∨ ∃ d, r.2.1.file = some (s.file.getD [] ++ d)) ∧
    (s.file.getD []).length ≤ (r.2.1.file.getD []).length ∧
    (r.1 = true → ∃ w, w ≠ [] ∧ r.2.1.file = some (s.file.getD [] ++ w)) := by
  cases h0 : s.gdkFlag with
  | some b => exact step_file_cached ctx f fn ln sf va s b r h0 h
  | none =>
    rw [step_uncached ctx f fn ln sf va s h0] at h
    obtain ⟨r1, hr1, rfl⟩ := Option.map_eq_some'.mp h
    exact step_file_cached ctx f fn ln sf va
      { s with gdkFlag := some (wxGetEnv ctx.env "GDK_DEBUG") }
      (wxGetEnv ctx.env "GDK_DEBUG") r1 rfl hr1

/-- Witness for C5: a successful enabled call starting from a
non-existent file creates it with exactly the new record appended to the
empty prior content. -/
theorem C5_witness :
    ((some "PreciseTime:1,2. f.c:3:fn--->m".data : Option (List Char)) =
        (none : Option (List Char)) ∨
      ∃ d, (some "PreciseTime:1,2. f.c:3:fn--->m".data : Option (List Char)) =
        some ([] ++ d)) ∧
    (([] : List Char)).length ≤ ("PreciseTime:1,2. f.c:3:fn--->m".data).length ∧
    (true = true → ∃ w, w ≠ [] ∧
      (some "PreciseTime:1,2. f.c:3:fn--->m".data : Option (List Char)) =
        some ([] ++ w)) :=
  C5_theorem ⟨envOn, true, 1, 2⟩ "m".data "fn".data 3 "f.c".data [] ⟨some true, none⟩
    (true, ⟨some true, some "PreciseTime:1,2. f.c:3:fn--->m".data⟩,
      [Event.fileOpen logPath true, Event.clockRead 1 2,
       Event.fileWrite "PreciseTime:1,2. f.c:3:fn--->".data, Event.fileWrite "m".data,
       Event.fileClose])
    (by decide)

/-- Claim C6, as stated, is false on the code: the logger stamps whatever
`clock_gettime(CLOCK_REALTIME, ...)` returns, and that clock may step
backwards between two sequential enabled calls.  Concretely, from an
enabled state, call A records timestamp `(100, 0)` and the immediately
following call B records `(50, 0)`, and `(50, 0)` is not greater than or
equal to `(100, 0)`. -/
theorem C6_counterexample :
    (wxGtkDebugLog ⟨envOn, true, 100, 0⟩ "m".data "fn".data 1 "f.c".data []
        ⟨some true, some []⟩ =
      some (true, ⟨some true, some "PreciseTime:100,0. f.c:1:fn--->m".data⟩,
        traceC6A)) ∧
    (wxGtkDebugLog ⟨envOff, true, 50, 0⟩ "m".data "fn".data 1 "f.c".data []
        ⟨some true, some "PreciseTime:100,0. f.c:1:fn--->m".data⟩ =
      some (true,
        ⟨some true,
         some "PreciseTime:100,0. f.c:1:fn--->mPreciseTime:50,0. f.c:1:fn--->m".data⟩,
        traceC6B)) ∧
    recordedTs traceC6A = some (100, 0) ∧ recordedTs traceC6B = some (50, 0) ∧
    ¬ ((100 : Int) < 50 ∨ ((100 : Int) = 50 ∧ (0 : Int) ≤ 0)) := by
  exact ⟨by decide, by decide, by decide, by decide, by decide⟩

/-- Claim C6, amended: for two sequential enabled successful calls A then
B, the timestamp recorded for B is greater than or equal to the timestamp
recorded for A, provided the real-time clock readings delivered to the
two calls are nondecreasing (which `CLOCK_REALTIME` itself does not
guarantee): the logger records exactly the clock reading of each call. -/
theorem C6_theorem (ctxA ctxB : CallCtx) (fA fnA : List Char) (lnA : Int)
    (sfA : List Char) (vaA : List FmtArg) (fB fnB : List Char) (lnB : Int)
    (sfB : List Char) (vaB : List FmtArg) (s s1 s2 : LogState) (trA trB : List Event)
    (hA : wxGtkDebugLog ctxA fA fnA lnA sfA vaA s = some (true, s1, trA))
    (hB : wxGtkDebugLog ctxB fB fnB lnB sfB vaB s1 = some (true, s2, trB))
    (hclock : ctxA.sec < ctxB.sec ∨ (ctxA.sec = ctxB.sec ∧ ctxA.nsec ≤ ctxB.nsec)) :
    ∃ tsA tsB : Int × Int, recordedTs trA = some tsA ∧ recordedTs trB = some tsB ∧
      (tsA.1 < tsB.1 ∨ (tsA.1 = tsB.1 ∧ tsA.2 ≤ tsB.2)) := by
  obtain ⟨_, _, _, _, hT1⟩ := success_shape ctxA fA fnA lnA sfA vaA s s1 trA hA
  obtain ⟨_, _, _, _, hT2⟩ := success_shape ctxB fB fnB lnB sfB vaB s1 s2 trB hB
  exact ⟨(ctxA.sec, ctxA.nsec), (ctxB.sec, ctxB.nsec), hT1, hT2, hclock⟩

/-- Witness for the amended C6: two sequential enabled calls with clock
readings `(1, 2)` then `(1, 5)`: the recorded timestamps are those
readings, in nondecreasing order. -/
theorem C6_witness :
    ∃ tsA tsB : Int × Int,
      recordedTs [Event.fileOpen logPath true, Event.clockRead 1 2,
        Event.fileWrite "PreciseTime:1,2. f.c:1:fn--->".data, Event.fileWrite "m".data,
        Event.fileClose] = some tsA ∧
      recordedTs [Event.fileOpen logPath true, Event.clockRead 1 5,
        Event.fileWrite "PreciseTime:1,5. f.c:1:fn--->".data, Event.fileWrite "m".data,
        Event.fileClose] = some tsB ∧
      (tsA.1 < tsB.1 ∨ (tsA.1 = tsB.1 ∧ tsA.2 ≤ tsB.2)) :=
  C6_theorem ⟨envOn, true, 1, 2⟩ ⟨envOn, true, 1, 5⟩ "m".data "fn".data 1 "f.c".data []
    "m".data "fn".data 1 "f.c".data [] ⟨some true, some []⟩
    ⟨some true, some "PreciseTime:1,2. f.c:1:fn--->m".data⟩
    ⟨some true,
     some "PreciseTime:1,2. f.c:1:fn--->mPreciseTime:1,5. f.c:1:fn--->m".data⟩
    [Event.fileOpen logPath true, Event.clockRead 1 2,
     Event.fileWrite "PreciseTime:1,2. f.c:1:fn--->".data, Event.fileWrite "m".data,
     Event.fileClose]
    [Event.fileOpen logPath true, Event.clockRead 1 5,
     Event.fileWrite "PreciseTime:1,5. f.c:1:fn--->".data, Event.fileWrite "m".data,
     Event.fileClose]
    (by decide) (by decide) (by decide)

/-- Claim C7: the two implementations are not behaviorally equivalent.
For the enabled call with format `"%s"`, argument `"hello"`, function
`"DoWork"`, line `42`, source file `"worker.c"`, clock `(1, 2)` and a
successful open on an empty file, the first implementation writes
`PreciseTime:1,2. worker.c:42:DoWork--->hello` while the second — whose
second `fprintf` receives `src_file`, `line_num`, `function_name` and the
raw `va_list` as the format arguments — writes
`PreciseTime:1,2. worker.c`: its `%s` consumes `src_file` instead of the
caller's argument, and the `src:line:fn--->` fields are absent. -/
theorem C7_theorem :
    (wxGtkDebugLog ⟨envOn, true, 1, 2⟩ "%s".data "DoWork".data 42 "worker.c".data
        [FmtArg.str "hello".data] ⟨some true, some []⟩ =
      some (true, ⟨some true, some "PreciseTime:1,2. worker.c:42:DoWork--->hello".data⟩,
        [Event.fileOpen logPath true, Event.clockRead 1 2,
         Event.fileWrite "PreciseTime:1,2. worker.c:42:DoWork--->".data,
         Event.fileWrite "hello".data, Event.fileClose])) ∧
    (wxGtkDebugLog2 ⟨envOn, true, 1, 2⟩ "%s".data "DoWork".data 42 "worker.c".data
        [FmtArg.str "hello".data] ⟨some true, some []⟩ =
      some (true, ⟨some true, some "PreciseTime:1,2. worker.c".data⟩,
        [Event.fileOpen logPath true, Event.clockRead 1 2,
         Event.fileWrite "PreciseTime:1,2. ".data, Event.fileWrite "worker.c".data,
         Event.fileClose])) ∧
    "PreciseTime:1,2. worker.c:42:DoWork--->hello".data ≠
      "PreciseTime:1,2. worker.c".data :=
  ⟨by decide, by decide, by decide⟩

/-- Claim C8: behavior depends only on the presence of the environment
variable, never on its value.  Two call sequences that agree on
everything except their environments — with the environments agreeing on
whether `GDK_DEBUG` is present — produce identical runs from any state:
the same returned booleans, the same final state (hence the same file
bytes), and the same effect trace. -/
theorem C8_theorem (cs1 cs2 : List Call) (s : LogState)
    (h : List.Forall₂ Call.sameButEnv cs1 cs2) :
    runCalls cs1 s = runCalls cs2 s := by
  induction h generalizing s with
  | nil => rfl
  | @cons c1 c2 l1 l2 hc hl ih =>
    rw [runCalls, runCalls, step_sameButEnv c1 c2 hc s]
    cases wxGtkDebugLog c2.ctx c2.format c2.function_name c2.line_num c2.src_file
        c2.varargs s with
    | none => rfl
    | some r1 =>
      rw [Option.some_bind, Option.some_bind, ih r1.2.1]

/-- Witness for C8: a run whose call sees `GDK_DEBUG="1"` equals the same
run with `GDK_DEBUG="xyz"`. -/
theorem C8_witness :
    runCalls [⟨⟨envOn, true, 1, 2⟩, "%d".data, "fn".data, 3, "f.c".data,
        [FmtArg.int 5]⟩] ⟨none, none⟩ =
      runCalls [⟨⟨envOnOther, true, 1, 2⟩, "%d".data, "fn".data, 3, "f.c".data,
        [FmtArg.int 5]⟩] ⟨none, none⟩ :=
  C8_theorem _ _ ⟨none, none⟩
    (List.Forall₂.cons ⟨rfl, rfl, rfl, rfl, rfl, rfl, rfl, rfl, rfl⟩ List.Forall₂.nil)

/-- Claim C9, as stated, is false on the code: the spec's step order puts
the clock reading (step 3) before the file open (step 4), but the code
calls `fopen` first and `clock_gettime` after it.  In the concrete
enabled call below, the first `fileOpen` event is at index 0 and the
first `clockRead` at index 1, so there are no positions with the clock
reading strictly before the file open. -/
theorem C9_counterexample :
    (wxGtkDebugLog ⟨envOn, true, 5, 6⟩ "m".data "fn".data 1 "f.c".data []
        ⟨some true, some []⟩ =
      some (true, ⟨some true, some "PreciseTime:5,6. f.c:1:fn--->m".data⟩, traceC9)) ∧
    firstIdx Event.isFileOpen traceC9 = some 0 ∧
    firstIdx Event.isClockRead traceC9 = some 1 ∧
    ¬ ∃ i j : Nat, firstIdx Event.isClockRead traceC9 = some i ∧
        firstIdx Event.isFileOpen traceC9 = some j ∧ i < j := by
  refine ⟨by decide, by decide, by decide, ?_⟩
  rintro ⟨i, j, hi, hj, hij⟩
  have hi1 : 1 = i := Option.some.inj
    ((by decide : firstIdx Event.isClockRead traceC9 = some 1).symm.trans hi)
  have hj0 : 0 = j := Option.some.inj
    ((by decide : firstIdx Event.isFileOpen traceC9 = some 0).symm.trans hj)
  omega

/-- Claim C9, amended: in every enabled call the file open comes first
and the clock reading immediately after it: the first `fileOpen` event of
the trace is at some index `j` and the first `clockRead` event at `j + 1`. -/
theorem C9_theorem (ctx : CallCtx) (f fn : List Char) (ln : Int) (sf : List Char)
    (va : List FmtArg) (s : LogState) (r : Bool × LogState × List Event)
    (hen : s.gdkFlag.getD (wxGetEnv ctx.env "GDK_DEBUG") = true)
    (h : wxGtkDebugLog ctx f fn ln sf va s = some r) :
    ∃ j, firstIdx Event.isFileOpen r.2.2 = some j ∧
      firstIdx Event.isClockRead r.2.2 = some (j + 1) := by
  cases h0 : s.gdkFlag with
  | some b =>
    have hb : b = true := by simpa [h0] using hen
    subst hb
    obtain ⟨hop, hck⟩ := firstIdx_cached_true ctx f fn ln sf va s r h0 h
    exact ⟨0, hop, hck⟩
  | none =>
    have he : wxGetEnv ctx.env "GDK_DEBUG" = true := by simpa [h0] using hen
    rw [step_uncached ctx f fn ln sf va s h0, he] at h
    obtain ⟨r1, hr1, rfl⟩ := Option.map_eq_some'.mp h
    obtain ⟨hop, hck⟩ := firstIdx_cached_true ctx f fn ln sf va _ r1 rfl hr1
    refine ⟨1, ?_, ?_⟩
    · show firstIdx Event.isFileOpen (Event.envRead "GDK_DEBUG" :: r1.2.2) = some 1
      simp [firstIdx, Event.isFileOpen, hop]
    · show firstIdx Event.isClockRead (Event.envRead "GDK_DEBUG" :: r1.2.2) = some 2
      simp [firstIdx, Event.isClockRead, hck]

/-- Witness for the amended C9: a first enabled call whose open fails
still opens the file first (index 1, after the one-time environment
read) and reads the clock immediately after (index 2). -/
theorem C9_witness :
    ∃ j, firstIdx Event.isFileOpen
        [Event.envRead "GDK_DEBUG", Event.fileOpen logPath false,
         Event.clockRead 7 8] = some j ∧
      firstIdx Event.isClockRead
        [Event.envRead "GDK_DEBUG", Event.fileOpen logPath false,
         Event.clockRead 7 8] = some (j + 1) :=
  C9_theorem ⟨envOn, false, 7, 8⟩ "m".data "fn".data 1 "f.c".data [] ⟨none, none⟩
    (false, ⟨some true, none⟩,
      [Event.envRead "GDK_DEBUG", Event.fileOpen logPath false, Event.clockRead 7 8])
    (by decide) (by decide)

/-- Claim C10: the logger appends no line terminator of its own.  For
every successful call, the bytes written are exactly the fixed-field
header (which ends in `--->`) followed by the caller's formatted message,
so the record ends in a newline exactly when the formatted message does. -/
theorem C10_theorem (ctx : CallCtx) (f fn : List Char) (ln : Int) (sf : List Char)
    (va : List FmtArg) (s s' : LogState) (tr : List Event)
    (h : wxGtkDebugLog ctx f fn ln sf va s = some (true, s', tr)) :
    ∃ msg, sprintf f va = some msg ∧
      writtenBytes tr = headerBytes ctx.sec ctx.nsec sf ln fn ++ msg ∧
      (∃ p, headerBytes ctx.sec ctx.nsec sf ln fn = p ++ "--->".data) ∧
      ((writtenBytes tr).getLast? = some '\n' ↔ msg.getLast? = some '\n') := by
  obtain ⟨msg, hm, _, hw, _⟩ := success_shape ctx f fn ln sf va s s' tr h
  refine ⟨msg, hm, hw,
    ⟨"PreciseTime:".data ++ intChars ctx.sec ++ [','] ++ intChars ctx.nsec ++
      ". ".data ++ sf ++ [':'] ++ intChars ln ++ [':'] ++ fn, by simp [headerBytes]⟩, ?_⟩
  rw [hw]
  cases msg with
  | nil => simp [headerBytes_last]
  | cons c cs =>
    rw [List.getLast?_append_of_ne_nil _ (List.cons_ne_nil c cs)]

/-- Witness for C10: a successful call with message `"m"` (no newline in
the format) writes header plus `"m"` and the record does not end in a
newline, matching the message. -/
theorem C10_witness :
    ∃ msg, sprintf "m".data [] = some msg ∧
      writtenBytes [Event.fileOpen logPath true, Event.clockRead 1 2,
        Event.fileWrite "PreciseTime:1,2. f.c:3:fn--->".data, Event.fileWrite "m".data,
        Event.fileClose] = headerBytes 1 2 "f.c".data 3 "fn".data ++ msg ∧
      (∃ p, headerBytes 1 2 "f.c".data 3 "fn".data = p ++ "--->".data) ∧
      ((writtenBytes [Event.fileOpen logPath true, Event.clockRead 1 2,
          Event.fileWrite "PreciseTime:1,2. f.c:3:fn--->".data,
          Event.fileWrite "m".data, Event.fileClose]).getLast? = some '\n' ↔
        msg.getLast? = some '\n') :=
  C10_theorem ⟨envOn, true, 1, 2⟩ "m".data "fn".data 3 "f.c".data []
    ⟨some true, some []⟩ ⟨some true, some "PreciseTime:1,2. f.c:3:fn--->m".data⟩
    [Event.fileOpen logPath true, Event.clockRead 1 2,
     Event.fileWrite "PreciseTime:1,2. f.c:3:fn--->".data, Event.fileWrite "m".data,
     Event.fileClose]
    (by decide)
